import Mathlib

/-!
Verification of the MSAL.js error taxonomy (AuthError hierarchy).

The embedding follows the later of the two source revisions (the one in which
InteractionRequiredAuthError extends ServerError and carries interactionType
and claimsRequired), which the specification designates as authoritative.
Each TypeScript class constructor is modelled as a function producing a record
AuthErrorInst; the dynamic class of the constructed object is recorded in the
cls field, and the prototype chain (the extends clauses) is recorded in
ErrorClass.parent, from which the runtime instanceof test is computed.
-/

/-- The closed set of error classes declared in the source file. -/
inductive ErrorClass where
  | authError
  | clientAuthError
  | configurationAuthError
  | serverError
  | interactionRequiredAuthError
  | claimsRequiredAuthError
deriving DecidableEq, BEq, Repr

/-- The name string each class constructor assigns to this.name. -/
def ErrorClass.className : ErrorClass → String
  | .authError => "AuthError"
  | .clientAuthError => "ClientAuthError"
  | .configurationAuthError => "ConfigurationAuthError"
  | .serverError => "ServerError"
  | .interactionRequiredAuthError => "InteractionRequiredAuthError"
  | .claimsRequiredAuthError => "ClaimsRequiredAuthError"

/-- The extends clause of each class in the source: AuthError extends the
built-in Error (outside the taxonomy), ClientAuthError extends AuthError,
ConfigurationAuthError extends ClientAuthError, ServerError extends AuthError,
InteractionRequiredAuthError extends ServerError, and ClaimsRequiredAuthError
extends InteractionRequiredAuthError. -/
def ErrorClass.parent : ErrorClass → Option ErrorClass
  | .authError => none
  | .clientAuthError => some .authError
  | .configurationAuthError => some .clientAuthError
  | .serverError => some .authError
  | .interactionRequiredAuthError => some .serverError
  | .claimsRequiredAuthError => some .interactionRequiredAuthError

/-- Walk up the parent chain at most fuel steps looking for anc. -/
def ErrorClass.instanceOfAux : Nat → ErrorClass → ErrorClass → Bool
  | 0, _, _ => false
  | n + 1, c, anc =>
    c == anc ||
      (match c.parent with
       | none => false
       | some p => ErrorClass.instanceOfAux n p anc)

/-- The runtime instanceof test: c is anc itself or a transitive subclass of
anc. Six classes, so fuel 6 covers the whole chain. -/
def ErrorClass.instanceOf (c anc : ErrorClass) : Bool :=
  ErrorClass.instanceOfAux 6 c anc

/-- A constructed error object: the dynamic class, the fields set by the
AuthError base constructor (name, message, tokenRequestType, userState), the
InteractionRequiredAuthError field interactionType (absent until assigned),
and the ClaimsRequiredAuthError field claimsRequired (absent on the other
classes). -/
structure AuthErrorInst where
  cls : ErrorClass
  name : String
  message : String
  tokenRequestType : String
  userState : String
  interactionType : Option String := none
  claimsRequired : Option String := none
deriving DecidableEq, Repr

/-- The AuthError constructor: super(message) stores the message, then name,
tokenRequestType and userState are assigned. -/
def AuthError.new (message tokenRequestType userState : String) : AuthErrorInst :=
  { cls := ErrorClass.authError
    name := "AuthError"
    message := message
    tokenRequestType := tokenRequestType
    userState := userState }

/-- The ClientAuthError constructor: super then this.name = "ClientAuthError"
and the prototype is set to ClientAuthError.prototype. -/
def ClientAuthError.new (message tokenRequestType userState : String) : AuthErrorInst :=
  { AuthError.new message tokenRequestType userState with
      cls := ErrorClass.clientAuthError
      name := "ClientAuthError" }

/-- The ConfigurationAuthError constructor. -/
def ConfigurationAuthError.new (message tokenType userState : String) : AuthErrorInst :=
  { ClientAuthError.new message tokenType userState with
      cls := ErrorClass.configurationAuthError
      name := "ConfigurationAuthError" }

/-- The ServerError constructor. -/
def ServerError.new (message tokenType userState : String) : AuthErrorInst :=
  { AuthError.new message tokenType userState with
      cls := ErrorClass.serverError
      name := "ServerError" }

/-- The InteractionRequiredAuthError constructor; interactionType is not
assigned by the constructor, so it starts out absent. -/
def InteractionRequiredAuthError.new (message tokenType userState : String) : AuthErrorInst :=
  { ServerError.new message tokenType userState with
      cls := ErrorClass.interactionRequiredAuthError
      name := "InteractionRequiredAuthError" }

/-- The ClaimsRequiredAuthError constructor: super, then this.claimsRequired
is assigned the claimsRequired argument. -/
def ClaimsRequiredAuthError.new (message tokenType userState claimsRequired : String) : AuthErrorInst :=
  { InteractionRequiredAuthError.new message tokenType userState with
      cls := ErrorClass.claimsRequiredAuthError
      name := "ClaimsRequiredAuthError"
      claimsRequired := some claimsRequired }

/-- setInteractionType(interactionType) assigns this.interactionType. -/
def AuthErrorInst.setInteractionType (e : AuthErrorInst) (interactionType : String) : AuthErrorInst :=
  { e with interactionType := some interactionType }

/-- Modelled from the spec: Utils.isEmpty (Utils.ts is not among the given
sources); a string argument is empty iff it has no characters. -/
def Utils.isEmpty (str : String) : Bool :=
  str.length == 0

/-- Modelled from the spec: Constants.cacheLocationLocal (Constants.ts is not
among the given sources), the valid local cache-location value. -/
def Constants.cacheLocationLocal : String := "localStorage"

/-- Modelled from the spec: Constants.cacheLocationSession (Constants.ts is
not among the given sources), the valid session cache-location value. -/
def Constants.cacheLocationSession : String := "sessionStorage"

/-- ClientAuthError.createEndpointResolutionError: the source builds an
errorMessage from the fixed template but then returns a ClientAuthError
constructed from the raw errDesc, leaving errorMessage unused. -/
def ClientAuthError.createEndpointResolutionError (errDesc tokenType userState : String) : AuthErrorInst :=
  let errorMessage := "Error in Could not resolve endpoints. Please check network and try again."
  let _errorMessage :=
    if !(Utils.isEmpty errDesc) then errorMessage ++ " Details: " ++ errDesc else errorMessage
  ClientAuthError.new errDesc tokenType userState

def ClientAuthError.createMultipleMatchingTokensInCacheError (scope tokenType userState : String) : AuthErrorInst :=
  ClientAuthError.new
    ("Cache error for scope " ++ scope ++ ": The cache contains multiple tokens satisfying the requirements. Call AcquireToken again providing more requirements like authority.")
    tokenType userState

def ClientAuthError.createMultipleAuthoritiesInCacheError (scope tokenType userState : String) : AuthErrorInst :=
  ClientAuthError.new
    ("Cache error for scope " ++ scope ++ ": Multiple authorities found in the cache. Pass authority in the API overload.")
    tokenType userState

def ClientAuthError.createPopupWindowError (tokenType userState : String) : AuthErrorInst :=
  ClientAuthError.new
    "Error opening popup window. This can happen if you are using IE or if popups are blocked in the browser."
    tokenType userState

def ClientAuthError.createTokenRenewalTimeoutError (tokenType userState : String) : AuthErrorInst :=
  ClientAuthError.new "Token renewal operation failed due to timeout." tokenType userState

def ClientAuthError.createInvalidStateError (invalidState actualState tokenType userState : String) : AuthErrorInst :=
  ClientAuthError.new
    ("Invalid state: " ++ invalidState ++ ", should be state: " ++ actualState)
    tokenType userState

def ClientAuthError.createNonceMismatchError (invalidNonce actualNonce tokenType userState : String) : AuthErrorInst :=
  ClientAuthError.new
    ("Invalid nonce: " ++ invalidNonce ++ ", should be nonce: " ++ actualNonce)
    tokenType userState

def ClientAuthError.createLoginInProgressError (tokenType userState : String) : AuthErrorInst :=
  ClientAuthError.new
    "Login_In_Progress: Error during login call - login is already in progress."
    tokenType userState

def ClientAuthError.createAcquireTokenInProgressError (tokenType userState : String) : AuthErrorInst :=
  ClientAuthError.new
    "AcquireToken_In_Progress: Error during login call - login is already in progress."
    tokenType userState

def ClientAuthError.createUserCancelledError (tokenType userState : String) : AuthErrorInst :=
  ClientAuthError.new "User_Cancelled: User cancelled " tokenType userState

def ConfigurationAuthError.createInvalidCacheLocationConfigError (givenCacheLocation tokenType userState : String) : AuthErrorInst :=
  ConfigurationAuthError.new
    ("Cache Location is not valid. Provided value:" ++ givenCacheLocation ++ ". Possible values are: "
      ++ Constants.cacheLocationLocal ++ ", " ++ Constants.cacheLocationSession)
    tokenType userState

def ConfigurationAuthError.createNoCallbackGivenError (tokenType userState : String) : AuthErrorInst :=
  ConfigurationAuthError.new
    "Error in configuration: no callback(s) registered for login/acquireTokenRedirect flows. Plesae call handleRedirectCallbacks() with the appropriate callback signatures. More information is available here: https://github.com/AzureAD/microsoft-authentication-library-for-js/wiki/-basics"
    tokenType userState

def ConfigurationAuthError.createCallbackParametersError (numArgs : Nat) (tokenType userState : String) : AuthErrorInst :=
  ConfigurationAuthError.new
    ("Error occurred in callback - incorrect number of arguments, expected 2, got " ++ toString numArgs ++ ".")
    tokenType userState

def ConfigurationAuthError.createSuccessCallbackParametersError (numArgs : Nat) (tokenType userState : String) : AuthErrorInst :=
  ConfigurationAuthError.new
    ("Error occurred in callback for successful token response - incorrect number of arguments, expected 1, got " ++ toString numArgs ++ ".")
    tokenType userState

def ConfigurationAuthError.createErrorCallbackParametersError (numArgs : Nat) (tokenType userState : String) : AuthErrorInst :=
  ConfigurationAuthError.new
    ("Error occurred in callback for error response - incorrect number of arguments, expected 1, got " ++ toString numArgs ++ ".")
    tokenType userState

def ConfigurationAuthError.createEmptyScopesArrayError (scopesValue tokenType userState : String) : AuthErrorInst :=
  ConfigurationAuthError.new
    ("Scopes cannot be passed as empty array. Given value: " ++ scopesValue)
    tokenType userState

def ConfigurationAuthError.createScopesNonArrayError (scopesValue tokenType userState : String) : AuthErrorInst :=
  ConfigurationAuthError.new
    ("Scopes cannot be passed as non-array. Given value: " ++ scopesValue)
    tokenType userState

def ConfigurationAuthError.createClientIdSingleScopeError (scopesValue tokenType userState : String) : AuthErrorInst :=
  ConfigurationAuthError.new
    ("Client ID can only be provided as a single scope. Given value: " ++ scopesValue)
    tokenType userState

def ServerError.createServerUnavailableError (tokenType userState : String) : AuthErrorInst :=
  ServerError.new "Server is temporarily unavailable." tokenType userState

/-- ServerError.createUnknownServerError: the source passes the literal empty
string as the message and never uses the errorDesc argument. -/
def ServerError.createUnknownServerError (errorDesc tokenType userState : String) : AuthErrorInst :=
  let _ := errorDesc
  ServerError.new "" tokenType userState

def InteractionRequiredAuthError.createLoginRequiredAuthError (tokenType userState : String) : AuthErrorInst :=
  InteractionRequiredAuthError.new "login_required: User must login." tokenType userState

def InteractionRequiredAuthError.createInteractionRequiredAuthError (errorDesc tokenType userState : String) : AuthErrorInst :=
  InteractionRequiredAuthError.new ("interaction_required: " ++ errorDesc) tokenType userState

def InteractionRequiredAuthError.createConsentRequiredAuthError (errorDesc tokenType userState : String) : AuthErrorInst :=
  InteractionRequiredAuthError.new ("consent_required: " ++ errorDesc) tokenType userState

/-- The names exported from the AuthError module by the top-level index.ts. -/
def authErrorModuleExports : List String :=
  ["AuthError", "ClientAuthError", "ConfigurationAuthError",
   "InteractionRequiredAuthError", "ServerError"]

/-- The class names of all variants declared in the taxonomy source file. -/
def taxonomyVariantNames : List String :=
  ["AuthError", "ClientAuthError", "ConfigurationAuthError",
   "ServerError", "InteractionRequiredAuthError", "ClaimsRequiredAuthError"]

/-- The string sub occurs contiguously inside s. -/
def containsStr (s sub : String) : Prop :=
  ∃ a b, s = a ++ sub ++ b

/-- The instance e passes the runtime instanceof test for class c. -/
def isValidAs (e : AuthErrorInst) (c : ErrorClass) : Prop :=
  e.cls.instanceOf c = true

/-- The narrowing check a caller holding a root-level error performs: test
instanceof ClaimsRequiredAuthError and, on success, read claimsRequired. -/
def narrowClaimsRequired (e : AuthErrorInst) : Option String :=
  if e.cls.instanceOf ErrorClass.claimsRequiredAuthError then e.claimsRequired else none

/-- Claim C1: every factory operation of the taxonomy returns an instance
whose name matches the documented variant and which passes the instanceof
test for every ancestor variant in its chain; in particular every
InteractionRequiredAuthError and every ClaimsRequiredAuthError is also a
valid ServerError and a valid root AuthError, and the ClaimsRequiredAuthError
instance keeps all of its fields intact (no information loss, no
re-wrapping). -/
theorem factories_name_and_ancestry (a b tokenType userState : String) (numArgs : Nat) :
    ((ClientAuthError.createEndpointResolutionError a tokenType userState).name = "ClientAuthError" ∧
      isValidAs (ClientAuthError.createEndpointResolutionError a tokenType userState) ErrorClass.clientAuthError ∧
      isValidAs (ClientAuthError.createEndpointResolutionError a tokenType userState) ErrorClass.authError) ∧
    ((ClientAuthError.createMultipleMatchingTokensInCacheError a tokenType userState).name = "ClientAuthError" ∧
      isValidAs (ClientAuthError.createMultipleMatchingTokensInCacheError a tokenType userState) ErrorClass.clientAuthError ∧
      isValidAs (ClientAuthError.createMultipleMatchingTokensInCacheError a tokenType userState) ErrorClass.authError) ∧
    ((ClientAuthError.createMultipleAuthoritiesInCacheError a tokenType userState).name = "ClientAuthError" ∧
      isValidAs (ClientAuthError.createMultipleAuthoritiesInCacheError a tokenType userState) ErrorClass.clientAuthError ∧
      isValidAs (ClientAuthError.createMultipleAuthoritiesInCacheError a tokenType userState) ErrorClass.authError) ∧
    ((ClientAuthError.createPopupWindowError tokenType userState).name = "ClientAuthError" ∧
      isValidAs (ClientAuthError.createPopupWindowError tokenType userState) ErrorClass.clientAuthError ∧
      isValidAs (ClientAuthError.createPopupWindowError tokenType userState) ErrorClass.authError) ∧
    ((ClientAuthError.createTokenRenewalTimeoutError tokenType userState).name = "ClientAuthError" ∧
      isValidAs (ClientAuthError.createTokenRenewalTimeoutError tokenType userState) ErrorClass.clientAuthError ∧
      isValidAs (ClientAuthError.createTokenRenewalTimeoutError tokenType userState) ErrorClass.authError) ∧
    ((ClientAuthError.createInvalidStateError a b tokenType userState).name = "ClientAuthError" ∧
      isValidAs (ClientAuthError.createInvalidStateError a b tokenType userState) ErrorClass.clientAuthError ∧
      isValidAs (ClientAuthError.createInvalidStateError a b tokenType userState) ErrorClass.authError) ∧
    ((ClientAuthError.createNonceMismatchError a b tokenType userState).name = "ClientAuthError" ∧
      isValidAs (ClientAuthError.createNonceMismatchError a b tokenType userState) ErrorClass.clientAuthError ∧
      isValidAs (ClientAuthError.createNonceMismatchError a b tokenType userState) ErrorClass.authError) ∧
    ((ClientAuthError.createLoginInProgressError tokenType userState).name = "ClientAuthError" ∧
      isValidAs (ClientAuthError.createLoginInProgressError tokenType userState) ErrorClass.clientAuthError ∧
      isValidAs (ClientAuthError.createLoginInProgressError tokenType userState) ErrorClass.authError) ∧
    ((ClientAuthError.createAcquireTokenInProgressError tokenType userState).name = "ClientAuthError" ∧
      isValidAs (ClientAuthError.createAcquireTokenInProgressError tokenType userState) ErrorClass.clientAuthError ∧
      isValidAs (ClientAuthError.createAcquireTokenInProgressError tokenType userState) ErrorClass.authError) ∧
    ((ClientAuthError.createUserCancelledError tokenType userState).name = "ClientAuthError" ∧
      isValidAs (ClientAuthError.createUserCancelledError tokenType userState) ErrorClass.clientAuthError ∧
      isValidAs (ClientAuthError.createUserCancelledError tokenType userState) ErrorClass.authError) ∧
    ((ConfigurationAuthError.createInvalidCacheLocationConfigError a tokenType userState).name = "ConfigurationAuthError" ∧
      isValidAs (ConfigurationAuthError.createInvalidCacheLocationConfigError a tokenType userState) ErrorClass.configurationAuthError ∧
      isValidAs (ConfigurationAuthError.createInvalidCacheLocationConfigError a tokenType userState) ErrorClass.clientAuthError ∧
      isValidAs (ConfigurationAuthError.createInvalidCacheLocationConfigError a tokenType userState) ErrorClass.authError) ∧
    ((ConfigurationAuthError.createNoCallbackGivenError tokenType userState).name = "ConfigurationAuthError" ∧
      isValidAs (ConfigurationAuthError.createNoCallbackGivenError tokenType userState) ErrorClass.configurationAuthError ∧
      isValidAs (ConfigurationAuthError.createNoCallbackGivenError tokenType userState) ErrorClass.clientAuthError ∧
      isValidAs (ConfigurationAuthError.createNoCallbackGivenError tokenType userState) ErrorClass.authError) ∧
    ((ConfigurationAuthError.createCallbackParametersError numArgs tokenType userState).name = "ConfigurationAuthError" ∧
      isValidAs (ConfigurationAuthError.createCallbackParametersError numArgs tokenType userState) ErrorClass.configurationAuthError ∧
      isValidAs (ConfigurationAuthError.createCallbackParametersError numArgs tokenType userState) ErrorClass.clientAuthError ∧
      isValidAs (ConfigurationAuthError.createCallbackParametersError numArgs tokenType userState) ErrorClass.authError) ∧
    ((ConfigurationAuthError.createSuccessCallbackParametersError numArgs tokenType userState).name = "ConfigurationAuthError" ∧
      isValidAs (ConfigurationAuthError.createSuccessCallbackParametersError numArgs tokenType userState) ErrorClass.configurationAuthError ∧
      isValidAs (ConfigurationAuthError.createSuccessCallbackParametersError numArgs tokenType userState) ErrorClass.clientAuthError ∧
      isValidAs (ConfigurationAuthError.createSuccessCallbackParametersError numArgs tokenType userState) ErrorClass.authError) ∧
    ((ConfigurationAuthError.createErrorCallbackParametersError numArgs tokenType userState).name = "ConfigurationAuthError" ∧
      isValidAs (ConfigurationAuthError.createErrorCallbackParametersError numArgs tokenType userState) ErrorClass.configurationAuthError ∧
      isValidAs (ConfigurationAuthError.createErrorCallbackParametersError numArgs tokenType userState) ErrorClass.clientAuthError ∧
      isValidAs (ConfigurationAuthError.createErrorCallbackParametersError numArgs tokenType userState) ErrorClass.authError) ∧
    ((ConfigurationAuthError.createEmptyScopesArrayError a tokenType userState).name = "ConfigurationAuthError" ∧
      isValidAs (ConfigurationAuthError.createEmptyScopesArrayError a tokenType userState) ErrorClass.configurationAuthError ∧
      isValidAs (ConfigurationAuthError.createEmptyScopesArrayError a tokenType userState) ErrorClass.clientAuthError ∧
      isValidAs (ConfigurationAuthError.createEmptyScopesArrayError a tokenType userState) ErrorClass.authError) ∧
    ((ConfigurationAuthError.createScopesNonArrayError a tokenType userState).name = "ConfigurationAuthError" ∧
      isValidAs (ConfigurationAuthError.createScopesNonArrayError a tokenType userState) ErrorClass.configurationAuthError ∧
      isValidAs (ConfigurationAuthError.createScopesNonArrayError a tokenType userState) ErrorClass.clientAuthError ∧
      isValidAs (ConfigurationAuthError.createScopesNonArrayError a tokenType userState) ErrorClass.authError) ∧
    ((ConfigurationAuthError.createClientIdSingleScopeError a tokenType userState).name = "ConfigurationAuthError" ∧
      isValidAs (ConfigurationAuthError.createClientIdSingleScopeError a tokenType userState) ErrorClass.configurationAuthError ∧
      isValidAs (ConfigurationAuthError.createClientIdSingleScopeError a tokenType userState) ErrorClass.clientAuthError ∧
      isValidAs (ConfigurationAuthError.createClientIdSingleScopeError a tokenType userState) ErrorClass.authError) ∧
    ((ServerError.createServerUnavailableError tokenType userState).name = "ServerError" ∧
      isValidAs (ServerError.createServerUnavailableError tokenType userState) ErrorClass.serverError ∧
      isValidAs (ServerError.createServerUnavailableError tokenType userState) ErrorClass.authError) ∧
    ((ServerError.createUnknownServerError a tokenType userState).name = "ServerError" ∧
      isValidAs (ServerError.createUnknownServerError a tokenType userState) ErrorClass.serverError ∧
      isValidAs (ServerError.createUnknownServerError a tokenType userState) ErrorClass.authError) ∧
    ((InteractionRequiredAuthError.createLoginRequiredAuthError tokenType userState).name = "InteractionRequiredAuthError" ∧
      isValidAs (InteractionRequiredAuthError.createLoginRequiredAuthError tokenType userState) ErrorClass.interactionRequiredAuthError ∧
      isValidAs (InteractionRequiredAuthError.createLoginRequiredAuthError tokenType userState) ErrorClass.serverError ∧
      isValidAs (InteractionRequiredAuthError.createLoginRequiredAuthError tokenType userState) ErrorClass.authError) ∧
    ((InteractionRequiredAuthError.createInteractionRequiredAuthError a tokenType userState).name = "InteractionRequiredAuthError" ∧
      isValidAs (InteractionRequiredAuthError.createInteractionRequiredAuthError a tokenType userState) ErrorClass.interactionRequiredAuthError ∧
      isValidAs (InteractionRequiredAuthError.createInteractionRequiredAuthError a tokenType userState) ErrorClass.serverError ∧
      isValidAs (InteractionRequiredAuthError.createInteractionRequiredAuthError a tokenType userState) ErrorClass.authError) ∧
    ((InteractionRequiredAuthError.createConsentRequiredAuthError a tokenType userState).name = "InteractionRequiredAuthError" ∧
      isValidAs (InteractionRequiredAuthError.createConsentRequiredAuthError a tokenType userState) ErrorClass.interactionRequiredAuthError ∧
      isValidAs (InteractionRequiredAuthError.createConsentRequiredAuthError a tokenType userState) ErrorClass.serverError ∧
      isValidAs (InteractionRequiredAuthError.createConsentRequiredAuthError a tokenType userState) ErrorClass.authError) ∧
    ((ClaimsRequiredAuthError.new a tokenType userState b).name = "ClaimsRequiredAuthError" ∧
      isValidAs (ClaimsRequiredAuthError.new a tokenType userState b) ErrorClass.claimsRequiredAuthError ∧
      isValidAs (ClaimsRequiredAuthError.new a tokenType userState b) ErrorClass.interactionRequiredAuthError ∧
      isValidAs (ClaimsRequiredAuthError.new a tokenType userState b) ErrorClass.serverError ∧
      isValidAs (ClaimsRequiredAuthError.new a tokenType userState b) ErrorClass.authError ∧
      (ClaimsRequiredAuthError.new a tokenType userState b).message = a ∧
      (ClaimsRequiredAuthError.new a tokenType userState b).tokenRequestType = tokenType ∧
      (ClaimsRequiredAuthError.new a tokenType userState b).userState = userState ∧
      (ClaimsRequiredAuthError.new a tokenType userState b).claimsRequired = some b) := by
  repeat' apply And.intro
  all_goals rfl

/-- The tokenRequestType and userState arguments round-trip onto the
instance. -/
def roundTrips (e : AuthErrorInst) (t u : String) : Prop :=
  e.tokenRequestType = t ∧ e.userState = u

/-- Claim C2: for every factory operation and all strings, the tokenRequestType
and userState arguments passed to the factory are returned unchanged on the
resulting instance (round-trip identity). -/
theorem factories_roundtrip_identity (a b t u : String) (numArgs : Nat) :
    roundTrips (ClientAuthError.createEndpointResolutionError a t u) t u ∧
    roundTrips (ClientAuthError.createMultipleMatchingTokensInCacheError a t u) t u ∧
    roundTrips (ClientAuthError.createMultipleAuthoritiesInCacheError a t u) t u ∧
    roundTrips (ClientAuthError.createPopupWindowError t u) t u ∧
    roundTrips (ClientAuthError.createTokenRenewalTimeoutError t u) t u ∧
    roundTrips (ClientAuthError.createInvalidStateError a b t u) t u ∧
    roundTrips (ClientAuthError.createNonceMismatchError a b t u) t u ∧
    roundTrips (ClientAuthError.createLoginInProgressError t u) t u ∧
    roundTrips (ClientAuthError.createAcquireTokenInProgressError t u) t u ∧
    roundTrips (ClientAuthError.createUserCancelledError t u) t u ∧
    roundTrips (ConfigurationAuthError.createInvalidCacheLocationConfigError a t u) t u ∧
    roundTrips (ConfigurationAuthError.createNoCallbackGivenError t u) t u ∧
    roundTrips (ConfigurationAuthError.createCallbackParametersError numArgs t u) t u ∧
    roundTrips (ConfigurationAuthError.createSuccessCallbackParametersError numArgs t u) t u ∧
    roundTrips (ConfigurationAuthError.createErrorCallbackParametersError numArgs t u) t u ∧
    roundTrips (ConfigurationAuthError.createEmptyScopesArrayError a t u) t u ∧
    roundTrips (ConfigurationAuthError.createScopesNonArrayError a t u) t u ∧
    roundTrips (ConfigurationAuthError.createClientIdSingleScopeError a t u) t u ∧
    roundTrips (ServerError.createServerUnavailableError t u) t u ∧
    roundTrips (ServerError.createUnknownServerError a t u) t u ∧
    roundTrips (InteractionRequiredAuthError.createLoginRequiredAuthError t u) t u ∧
    roundTrips (InteractionRequiredAuthError.createInteractionRequiredAuthError a t u) t u ∧
    roundTrips (InteractionRequiredAuthError.createConsentRequiredAuthError a t u) t u ∧
    roundTrips (ClaimsRequiredAuthError.new a t u b) t u := by
  repeat' apply And.intro
  all_goals rfl

/-- Claim C3 (failing input): createEndpointResolutionError with the non-empty
description "network down" returns an instance whose message is the raw
description itself, not the fixed endpoint-resolution template; the computed
template string is discarded by the source. -/
theorem createEndpointResolutionError_returns_raw_desc :
    (ClientAuthError.createEndpointResolutionError "network down" "idtoken" "s1").message
      = "network down" := rfl

/-- Claim C4 (failing input): createUnknownServerError ignores its errorDesc
argument and constructs the ServerError with the empty string as message, so
the message is empty rather than a non-empty template instantiation. -/
theorem createUnknownServerError_message_empty :
    (ServerError.createUnknownServerError "request_failed: unexpected response" "idtoken" "s1").message
      = "" := rfl

/-- Claim C5 (counterexample): ClaimsRequiredAuthError is a variant of the
taxonomy, yet it is absent from the AuthError export clause of the top-level
index, so the public surface does not re-export every variant name. -/
theorem claimsRequired_variant_not_exported :
    "ClaimsRequiredAuthError" ∈ taxonomyVariantNames ∧
    "ClaimsRequiredAuthError" ∉ authErrorModuleExports := by
  decide

/-- Claim C5 (amended): the top-level surface re-exports the root AuthError
together with ClientAuthError, ConfigurationAuthError, ServerError and
InteractionRequiredAuthError — every exported name is a taxonomy variant name,
so no internal-only helper types are exposed — but ClaimsRequiredAuthError is
not re-exported. -/
theorem authError_exports_amended :
    "AuthError" ∈ authErrorModuleExports ∧
    "ClientAuthError" ∈ authErrorModuleExports ∧
    "ConfigurationAuthError" ∈ authErrorModuleExports ∧
    "ServerError" ∈ authErrorModuleExports ∧
    "InteractionRequiredAuthError" ∈ authErrorModuleExports ∧
    "ClaimsRequiredAuthError" ∉ authErrorModuleExports ∧
    (∀ n ∈ authErrorModuleExports, n ∈ taxonomyVariantNames) := by
  decide

/-- Claim C6: after setInteractionType v, a read of interactionType returns v,
and every other field (name, message, tokenRequestType, userState,
claimsRequired, and the dynamic class) is unchanged. -/
theorem setInteractionType_frame (e : AuthErrorInst) (v : String) :
    (e.setInteractionType v).interactionType = some v ∧
    (e.setInteractionType v).name = e.name ∧
    (e.setInteractionType v).message = e.message ∧
    (e.setInteractionType v).tokenRequestType = e.tokenRequestType ∧
    (e.setInteractionType v).userState = e.userState ∧
    (e.setInteractionType v).claimsRequired = e.claimsRequired ∧
    (e.setInteractionType v).cls = e.cls :=
  ⟨rfl, rfl, rfl, rfl, rfl, rfl, rfl⟩

/-- Claim C7: a ClaimsRequiredAuthError constructed with claims payload c
carries claimsRequired equal to exactly c, the instance passes the instanceof
test at the root AuthError level, and the narrowing check performed by a
root-level caller still yields c. -/
theorem claimsRequired_payload_roundtrip (m t u c : String) :
    (ClaimsRequiredAuthError.new m t u c).claimsRequired = some c ∧
    isValidAs (ClaimsRequiredAuthError.new m t u c) ErrorClass.authError ∧
    narrowClaimsRequired (ClaimsRequiredAuthError.new m t u c) = some c :=
  ⟨rfl, rfl, rfl⟩

/-- Claim C8: createInvalidCacheLocationConfigError "foo" "idtoken" "s1"
returns an instance that is both a ConfigurationAuthError and a
ClientAuthError, and whose message contains "foo" as well as both valid
cache-location values. -/
theorem invalidCacheLocationConfigError_scenario :
    isValidAs (ConfigurationAuthError.createInvalidCacheLocationConfigError "foo" "idtoken" "s1")
      ErrorClass.configurationAuthError ∧
    isValidAs (ConfigurationAuthError.createInvalidCacheLocationConfigError "foo" "idtoken" "s1")
      ErrorClass.clientAuthError ∧
    containsStr (ConfigurationAuthError.createInvalidCacheLocationConfigError "foo" "idtoken" "s1").message
      "foo" ∧
    containsStr (ConfigurationAuthError.createInvalidCacheLocationConfigError "foo" "idtoken" "s1").message
      Constants.cacheLocationLocal ∧
    containsStr (ConfigurationAuthError.createInvalidCacheLocationConfigError "foo" "idtoken" "s1").message
      Constants.cacheLocationSession :=
  ⟨rfl, rfl,
    ⟨"Cache Location is not valid. Provided value:",
      ". Possible values are: localStorage, sessionStorage", rfl⟩,
    ⟨"Cache Location is not valid. Provided value:foo. Possible values are: ",
      ", sessionStorage", rfl⟩,
    ⟨"Cache Location is not valid. Provided value:foo. Possible values are: localStorage, ",
      "", rfl⟩⟩

/-- Claim C9: createNonceMismatchError "n1" "n2" "idtoken" "s1" yields a
message containing both "n1" and "n2", with the given (invalid) nonce "n1"
appearing before the expected (actual) nonce "n2". -/
theorem nonceMismatchError_scenario :
    containsStr (ClientAuthError.createNonceMismatchError "n1" "n2" "idtoken" "s1").message "n1" ∧
    containsStr (ClientAuthError.createNonceMismatchError "n1" "n2" "idtoken" "s1").message "n2" ∧
    (∃ a b c, (ClientAuthError.createNonceMismatchError "n1" "n2" "idtoken" "s1").message
      = a ++ "n1" ++ b ++ "n2" ++ c) :=
  ⟨⟨"Invalid nonce: ", ", should be nonce: n2", rfl⟩,
    ⟨"Invalid nonce: n1, should be nonce: ", "", rfl⟩,
    ⟨"Invalid nonce: ", ", should be nonce: ", "", rfl⟩⟩

/-- Claim C10: each of the three InteractionRequiredAuthError factories
returns an instance whose interactionType is unset at construction, and
setInteractionType is the operation through which it acquires a value. -/
theorem interactionType_unset_at_construction (d t u : String) (e : AuthErrorInst) (v : String) :
    (InteractionRequiredAuthError.createLoginRequiredAuthError t u).interactionType = none ∧
    (InteractionRequiredAuthError.createInteractionRequiredAuthError d t u).interactionType = none ∧
    (InteractionRequiredAuthError.createConsentRequiredAuthError d t u).interactionType = none ∧
    (e.setInteractionType v).interactionType = some v :=
  ⟨rfl, rfl, rfl, rfl⟩
